import Mathlib

/-!
Shallow embedding of the Archipel per-VM control agent
(`src/ArchipelAgent/archipel-agent/archipel/archipelVirtualMachine.py`)
in Lean 4, together with theorems settling the frozen claims about it.

The embedding models the agent's mutable fields as an explicit `VMState`,
driver (libvirt) calls as values supplied by a `Driver` record, and the
observable side effects of a handler (presence updates, pubsub change
notifications, hooks, driver calls) as an ordered `List Effect`.
Python exceptions from driver calls are modelled by `DrvResult`
(`libvirtErr` for `libvirt.libvirtError` with its error code, `err` for
any other exception).
-/

namespace Archipel

/-! ### Error codes (archipelVirtualMachine.py lines 52-70) -/

def ARCHIPEL_ERROR_CODE_VM_CREATE : Int := -1001
def ARCHIPEL_ERROR_CODE_VM_SUSPEND : Int := -1002
def ARCHIPEL_ERROR_CODE_VM_RESUME : Int := -1003
def ARCHIPEL_ERROR_CODE_VM_DESTROY : Int := -1004
def ARCHIPEL_ERROR_CODE_VM_SHUTDOWN : Int := -1005
def ARCHIPEL_ERROR_CODE_VM_REBOOT : Int := -1006
def ARCHIPEL_ERROR_CODE_VM_DEFINE : Int := -1007
def ARCHIPEL_ERROR_CODE_VM_UNDEFINE : Int := -1008
def ARCHIPEL_ERROR_CODE_VM_INFO : Int := -1009
def ARCHIPEL_ERROR_CODE_VM_XMLDESC : Int := -1011
def ARCHIPEL_ERROR_CODE_VM_LOCKED : Int := -1012
def ARCHIPEL_ERROR_CODE_VM_MIGRATE : Int := -1013
def ARCHIPEL_ERROR_CODE_VM_IS_MIGRATING : Int := -1014
def ARCHIPEL_ERROR_CODE_VM_AUTOSTART : Int := -1015
def ARCHIPEL_ERROR_CODE_VM_MEMORY : Int := -1016
def ARCHIPEL_ERROR_CODE_VM_NETWORKINFO : Int := -1017
def ARCHIPEL_ERROR_CODE_VM_HYPERVISOR_CAPABILITIES : Int := -1019
def ARCHIPEL_ERROR_CODE_VM_FREE : Int := -1020
def ARCHIPEL_ERROR_CODE_VM_MIGRATING : Int := -43

/-! ### Presence status texts (lines 76-84) -/

def ARCHIPEL_XMPP_SHOW_RUNNING : String := "Running"
def ARCHIPEL_XMPP_SHOW_PAUSED : String := "Paused"
def ARCHIPEL_XMPP_SHOW_SHUTDOWNED : String := "Off"
def ARCHIPEL_XMPP_SHOW_SHUTDOWNING : String := "Shutdowning..."
def ARCHIPEL_XMPP_SHOW_SHUTOFF : String := "Shutted off"
def ARCHIPEL_XMPP_SHOW_NOT_DEFINED : String := "Not defined"
def ARCHIPEL_XMPP_SHOW_CRASHED : String := "Crashed"

/-! ### Numeric constants of the libvirt python binding used by the code.
Domain state constants (returned by `domain.info()[0]`). -/

def VIR_DOMAIN_NOSTATE : Nat := 0
def VIR_DOMAIN_RUNNING : Nat := 1
def VIR_DOMAIN_BLOCKED : Nat := 2
def VIR_DOMAIN_PAUSED : Nat := 3
def VIR_DOMAIN_SHUTDOWN : Nat := 4
def VIR_DOMAIN_SHUTOFF : Nat := 5
def VIR_DOMAIN_CRASHED : Nat := 6

/-! Lifecycle event constants (second group) and their detail codes. -/

def VIR_DOMAIN_EVENT_DEFINED : Nat := 0
def VIR_DOMAIN_EVENT_UNDEFINED : Nat := 1
def VIR_DOMAIN_EVENT_STARTED : Nat := 2
def VIR_DOMAIN_EVENT_SUSPENDED : Nat := 3
def VIR_DOMAIN_EVENT_RESUMED : Nat := 4
def VIR_DOMAIN_EVENT_STOPPED : Nat := 5
def VIR_DOMAIN_EVENT_STARTED_BOOTED : Nat := 0
def VIR_DOMAIN_EVENT_STARTED_MIGRATED : Nat := 1
def VIR_DOMAIN_EVENT_SUSPENDED_PAUSED : Nat := 0
def VIR_DOMAIN_EVENT_SUSPENDED_MIGRATED : Nat := 1
def VIR_DOMAIN_EVENT_RESUMED_UNPAUSED : Nat := 0
def VIR_DOMAIN_EVENT_RESUMED_MIGRATED : Nat := 1
def VIR_DOMAIN_EVENT_STOPPED_SHUTDOWN : Nat := 0
def VIR_DOMAIN_EVENT_STOPPED_DESTROYED : Nat := 1
def VIR_DOMAIN_EVENT_STOPPED_MIGRATED : Nat := 3
def VIR_ERR_NO_DOMAIN : Nat := 42

/-! ### A small model of `xmpp.simplexml.Node` documents.
Only the operations the agent uses are modelled: `getTag` returns the
first child with the given tag, `delChild` deletes the first such child,
`addChild` appends a fresh empty child, and `setData` on the node found
by `getTag` is modelled by `setTagData` (replace the data of the first
child with the given tag). -/

inductive XmlNode where
  | mk (tag : String) (data : String) (children : List XmlNode)

def XmlNode.tag : XmlNode → String
  | .mk t _ _ => t

def XmlNode.data : XmlNode → String
  | .mk _ d _ => d

def XmlNode.children : XmlNode → List XmlNode
  | .mk _ _ c => c

def findTag (t : String) : List XmlNode → Option XmlNode
  | [] => none
  | c :: cs => if c.tag = t then some c else findTag t cs

def delTag (t : String) : List XmlNode → List XmlNode
  | [] => []
  | c :: cs => if c.tag = t then cs else c :: delTag t cs

def setDataFirst (t s : String) : List XmlNode → List XmlNode
  | [] => []
  | c :: cs => if c.tag = t then XmlNode.mk c.tag s c.children :: cs
               else c :: setDataFirst t s cs

def XmlNode.getTag (n : XmlNode) (t : String) : Option XmlNode :=
  findTag t n.children

def XmlNode.delChild (n : XmlNode) (t : String) : XmlNode :=
  .mk n.tag n.data (delTag t n.children)

def XmlNode.addChild (n : XmlNode) (t : String) : XmlNode :=
  .mk n.tag n.data (n.children ++ [XmlNode.mk t "" []])

def XmlNode.setTagData (n : XmlNode) (t s : String) : XmlNode :=
  .mk n.tag n.data (setDataFirst t s n.children)

/-! ### Agent identity (immutable after construction, spec section 3). -/

structure Agent where
  jidStripped : String
  jidNode : String
  password : String
  name : String

/-- `set_automatic_libvirt_description` (lines 270-285): force the
`description` element of the domain XML to `<jid>::::<password>` and the
`name` element to the agent's display name.  The Python function mutates
the node in place and returns its string serialization; the embedding
returns the mutated node (string serialization is not modelled). -/
def set_automatic_libvirt_description (ag : Agent) (xmldesc : XmlNode) : XmlNode :=
  let x1 := match xmldesc.getTag "description" with
    | none => xmldesc.addChild "description"
    | some _ => (xmldesc.delChild "description").addChild "description"
  let x2 := x1.setTagData "description" (ag.jidStripped ++ "::::" ++ ag.password)
  let x3 := match x2.getTag "name" with
    | none => x2.addChild "name"
    | some _ => x2
  x3.setTagData "name" ag.name

/-! ### Driver call results, domain info and the driver model. -/

inductive DrvResult (α : Type) where
  | ok (val : α)
  | libvirtErr (code : Int)
  | err

/-- The tuple returned by `domain.info()`. -/
structure DomInfo where
  state : Nat
  maxMem : Nat
  memory : Nat
  nrVirtCpu : Nat
  cpuTime : Nat

/-- Results of the libvirt driver calls the embedded handlers perform.
Each field gives the outcome the driver would produce for that call
during the run being analysed (the driver is deterministic within one
analysed step). -/
structure Driver where
  createRes : DrvResult Int
  domID : Int
  shutdownRes : DrvResult Int
  destroyRes : DrvResult Int
  rebootRes : DrvResult Int
  suspendRes : DrvResult Int
  resumeRes : DrvResult Int
  dominfo : DrvResult DomInfo
  autostartQ : DrvResult Int
  setMemoryRes : DrvResult Unit
  maxVcpusRes : DrvResult Int
  setVcpusRes : DrvResult Unit
  defineXMLRes : DrvResult Int
  undefineRes : DrvResult Int
  lookupRes : DrvResult Unit
  xmlDescRes : DrvResult XmlNode
  callbackId : Nat
  isQemuOrXen : Bool
  isQemu : Bool

/-! ### The agent's mutable state (constructor, lines 100-113). -/

structure VMState where
  locked : Bool
  lock_timer : Bool
  is_migrating : Bool
  libvirt_status : Nat
  domain : Option Unit
  definition : Option XmlNode
  description : Option XmlNode
  libvirt_event_callback_id : Option Nat
  trigger_libvirt_run : Bool
  xmppstatus : String

/-! ### Observable side effects, in the order the code performs them. -/

inductive Effect where
  | presence (pshow ptext : String)
  | pushChange (channel label : String)
  | hook (hname : String)
  | drvCall (cname : String)
  | drvSetMemory (v : Int)
  | armMemoryTimer (requested : Int)
  | drvDefineXML (xml : XmlNode)
  | deregisterCallback (cid : Nat)

/-- A reply on the bus: a typed result, an `ignore` reply, or a typed
error carrying a numeric code (`libvirtNs` is true when the error is
sent under the generic libvirt error namespace). -/
inductive Reply where
  | result
  | ignore
  | error (code : Int) (libvirtNs : Bool)

/-- Result of one of the libvirt-control methods: successor state, the
effects performed, and the value returned / exception raised. -/
structure OpResult (α : Type) where
  st : VMState
  effects : List Effect
  res : DrvResult α

/-- Result of an IQ handler: successor state, reply, effects. -/
structure HResult where
  st : VMState
  reply : Reply
  effects : List Effect

/-- `lock()` (lines 165-169): set `locked` and arm the safety timer. -/
def lock (st : VMState) : VMState :=
  { st with locked := true, lock_timer := true }

/-- `unlock()` (lines 171-175): clear `locked` and cancel the timer. -/
def unlock (st : VMState) : VMState :=
  { st with locked := false, lock_timer := false }

/-- `remove_libvirt_handler` (lines 411-418). -/
def remove_libvirt_handler (st : VMState) : VMState × List Effect :=
  match st.libvirt_event_callback_id with
  | some i => ({ st with libvirt_event_callback_id := none }, [.deregisterCallback i])
  | none => (st, [])

/-- `info()` (lines 630-647): read `domain.info()` and `domain.autostart()`
(the latter's failure is swallowed, defaulting to 0).  Raises when the
domain handle is null (attribute access on `None`). -/
def infoOp (drv : Driver) (st : VMState) : DrvResult DomInfo × List Effect :=
  match st.domain with
  | none => (.err, [])
  | some _ =>
    match drv.dominfo with
    | .ok i => (.ok i, [.drvCall "info", .drvCall "autostart"])
    | .libvirtErr c => (.libvirtErr c, [.drvCall "info"])
    | .err => (.err, [.drvCall "info"])

/-- `set_presence_according_to_libvirt_info` (lines 287-313).  Reads
`domain.info()`; on success updates `libvirt_status`, publishes presence
per the status, sets the `libvirt_run` trigger only for the
running/blocked and paused branches, then fires `HOOK_VM_INITIALIZE`.
On a `libvirtError` with code 42 (no such domain), drops the domain
handle, publishes extended-away / "Not defined" and turns the trigger
off; any other error is only logged.  (A non-libvirt exception would
propagate to the sole caller `connect_domain`, which logs it; the net
observable behaviour, no state change and no effect, is what the `err`
branch returns.) -/
def set_presence_according_to_libvirt_info (drv : Driver) (st : VMState) :
    VMState × List Effect :=
  match drv.dominfo with
  | .ok i =>
    let st1 := { st with libvirt_status := i.state }
    let br :=
      if i.state = VIR_DOMAIN_RUNNING ∨ i.state = VIR_DOMAIN_BLOCKED then
        ({ st1 with trigger_libvirt_run := true },
         [Effect.presence "" ARCHIPEL_XMPP_SHOW_RUNNING])
      else if i.state = VIR_DOMAIN_PAUSED then
        ({ st1 with trigger_libvirt_run := false },
         [Effect.presence "away" ARCHIPEL_XMPP_SHOW_PAUSED])
      else if i.state = VIR_DOMAIN_SHUTOFF then
        (st1, [Effect.presence "xa" ARCHIPEL_XMPP_SHOW_SHUTDOWNED])
      else if i.state = VIR_DOMAIN_SHUTDOWN then
        (st1, [Effect.presence "" ARCHIPEL_XMPP_SHOW_SHUTDOWNING])
      else (st1, [])
    (br.1, br.2 ++ [Effect.hook "HOOK_VM_INITIALIZE"])
  | .libvirtErr c =>
    if c = (VIR_ERR_NO_DOMAIN : Nat) then
      ({ st with domain := none, trigger_libvirt_run := false },
       [Effect.presence "xa" ARCHIPEL_XMPP_SHOW_NOT_DEFINED])
    else (st, [])
  | .err => (st, [])

/-- The event dispatch chain of `on_domain_event` (lines 357-400),
without the `finally` block.  The branch conditions follow the source
literally, including its use of the domain *state* constants
`VIR_DOMAIN_CRASHED` (6) and `VIR_DOMAIN_SHUTOFF` (5) as event numbers:
the `VIR_DOMAIN_SHUTOFF` branch is only reachable for a stopped event
whose detail is `..._STOPPED_MIGRATED`, since `VIR_DOMAIN_EVENT_STOPPED`
is also 5 and is tested first. -/
def domainEventBranch (st : VMState) (event detail : Nat) : VMState × List Effect :=
  if event = VIR_DOMAIN_EVENT_STARTED ∧ detail ≠ VIR_DOMAIN_EVENT_STARTED_MIGRATED then
    ({ st with trigger_libvirt_run := true },
     [Effect.presence "" ARCHIPEL_XMPP_SHOW_RUNNING,
      Effect.pushChange "virtualmachine:control" "created",
      Effect.hook "HOOK_VM_CREATE"])
  else if event = VIR_DOMAIN_EVENT_SUSPENDED ∧ detail ≠ VIR_DOMAIN_EVENT_SUSPENDED_MIGRATED then
    ({ st with trigger_libvirt_run := false },
     [Effect.presence "away" ARCHIPEL_XMPP_SHOW_PAUSED,
      Effect.pushChange "virtualmachine:control" "suspended",
      Effect.hook "HOOK_VM_SUSPEND"])
  else if event = VIR_DOMAIN_EVENT_RESUMED ∧ detail ≠ VIR_DOMAIN_EVENT_RESUMED_MIGRATED then
    ({ st with trigger_libvirt_run := false },
     [Effect.presence "" ARCHIPEL_XMPP_SHOW_RUNNING,
      Effect.pushChange "virtualmachine:control" "resumed",
      Effect.hook "HOOK_VM_RESUME"])
  else if event = VIR_DOMAIN_EVENT_STOPPED ∧ detail ≠ VIR_DOMAIN_EVENT_STOPPED_MIGRATED then
    ({ st with trigger_libvirt_run := false },
     [Effect.presence "xa" ARCHIPEL_XMPP_SHOW_SHUTDOWNED,
      Effect.pushChange "virtualmachine:control" "shutdowned",
      Effect.hook "HOOK_VM_STOP"])
  else if event = VIR_DOMAIN_CRASHED then
    ({ st with trigger_libvirt_run := false },
     [Effect.presence "xa" ARCHIPEL_XMPP_SHOW_CRASHED,
      Effect.pushChange "virtualmachine:control" "crashed",
      Effect.hook "HOOK_VM_CRASH"])
  else if event = VIR_DOMAIN_SHUTOFF then
    ({ st with trigger_libvirt_run := false },
     [Effect.presence "" ARCHIPEL_XMPP_SHOW_SHUTOFF,
      Effect.pushChange "virtualmachine:control" "shutoff",
      Effect.hook "HOOK_VM_SHUTOFF"])
  else if event = VIR_DOMAIN_EVENT_UNDEFINED then
    let st1 := { st with trigger_libvirt_run := false,
                         domain := none, description := none }
    let r := remove_libvirt_handler st1
    (r.1,
     [Effect.presence "xa" ARCHIPEL_XMPP_SHOW_NOT_DEFINED,
      Effect.pushChange "virtualmachine:definition" "undefined",
      Effect.hook "HOOK_VM_UNDEFINE"] ++ r.2)
  else if event = VIR_DOMAIN_EVENT_DEFINED then
    ({ st with trigger_libvirt_run := false },
     [Effect.presence "xa" ARCHIPEL_XMPP_SHOW_SHUTDOWNED,
      Effect.pushChange "virtualmachine:definition" "defined",
      Effect.hook "HOOK_VM_DEFINE"])
  else (st, [])

/-- `on_domain_event` (lines 339-409): the libvirt lifecycle-event
callback.  If migrating, log and return without touching anything.
Otherwise run the event branch, then the `finally` block: refresh the
cached `libvirt_status` from `self.info()["state"]` unless the event is
undefined/defined (swallowing any failure), and always `unlock()`. -/
def on_domain_event (drv : Driver) (st : VMState) (event detail : Nat) :
    VMState × List Effect :=
  if st.is_migrating then (st, [])
  else
    let b := domainEventBranch st event detail
    if event ≠ VIR_DOMAIN_EVENT_UNDEFINED ∧ event ≠ VIR_DOMAIN_EVENT_DEFINED then
      let r := infoOp drv b.1
      let st2 := match r.1 with
        | .ok i => { b.1 with libvirt_status := i.state }
        | _ => b.1
      (unlock st2, b.2 ++ r.2)
    else (unlock b.1, b.2)

/-- `connect_domain` (lines 315-337): look up the domain by UUID (on any
failure publish "Not defined" and fire `HOOK_VM_INITIALIZE`); then parse
`XMLDesc(0)` into `definition`, register the lifecycle callback, and run
the presence refresh (an exception in this second block is only
logged). -/
def connect_domain (drv : Driver) (st : VMState) : VMState × List Effect :=
  match st.domain with
  | some _ => (st, [])
  | none =>
    match drv.lookupRes with
    | .ok _ =>
      let st1 := { st with domain := some () }
      match drv.xmlDescRes with
      | .ok x =>
        let st2 := { st1 with definition := some x,
                              libvirt_event_callback_id := some drv.callbackId }
        let r := set_presence_according_to_libvirt_info drv st2
        (r.1, [Effect.drvCall "lookupByUUIDString", Effect.drvCall "XMLDesc",
               Effect.drvCall "domainEventRegisterAny"] ++ r.2)
      | _ => (st1, [Effect.drvCall "lookupByUUIDString", Effect.drvCall "XMLDesc"])
    | _ =>
      (st, [Effect.drvCall "lookupByUUIDString",
            Effect.presence "xa" ARCHIPEL_XMPP_SHOW_NOT_DEFINED,
            Effect.hook "HOOK_VM_INITIALIZE"])

/-- `create()` (lines 568-577): lock, call `domain.create()`, synthesize
a started event for drivers without async lifecycle events (non
QEMU/Xen), return `str(domain.ID())`. -/
def createOp (drv : Driver) (st0 : VMState) : OpResult Int :=
  let st := lock st0
  match st.domain with
  | none => ⟨st, [], .err⟩
  | some _ =>
    match drv.createRes with
    | .ok ret =>
      if ret = 0 ∧ ¬ drv.isQemuOrXen then
        let r := on_domain_event drv st VIR_DOMAIN_EVENT_STARTED VIR_DOMAIN_EVENT_STARTED_BOOTED
        ⟨r.1, Effect.drvCall "create" :: r.2 ++ [Effect.drvCall "ID"], .ok drv.domID⟩
      else ⟨st, [Effect.drvCall "create", Effect.drvCall "ID"], .ok drv.domID⟩
    | .libvirtErr c => ⟨st, [Effect.drvCall "create"], .libvirtErr c⟩
    | .err => ⟨st, [Effect.drvCall "create"], .err⟩

/-- `shutdown()` (lines 579-589): lock, call `domain.shutdown()`, read the
state (the `or` in the source evaluates `self.info()` a second time when
the first comparison fails), publish "Shutdowning..." while
running/blocked, synthesize a stopped event for non QEMU/Xen drivers. -/
def shutdownOp (drv : Driver) (st0 : VMState) : OpResult Unit :=
  let st := lock st0
  match st.domain with
  | none => ⟨st, [], .err⟩
  | some _ =>
    match drv.shutdownRes with
    | .ok ret =>
      let r1 := infoOp drv st
      match r1.1 with
      | .ok i =>
        let checkEffs := if i.state = VIR_DOMAIN_RUNNING then r1.2 else r1.2 ++ (infoOp drv st).2
        let pres : List Effect :=
          if i.state = VIR_DOMAIN_RUNNING ∨ i.state = VIR_DOMAIN_BLOCKED then
            [Effect.presence st.xmppstatus ARCHIPEL_XMPP_SHOW_SHUTDOWNING]
          else []
        if ret = 0 ∧ ¬ drv.isQemuOrXen then
          let r := on_domain_event drv st VIR_DOMAIN_EVENT_STOPPED VIR_DOMAIN_EVENT_STOPPED_SHUTDOWN
          ⟨r.1, Effect.drvCall "shutdown" :: checkEffs ++ pres ++ r.2, .ok ()⟩
        else ⟨st, Effect.drvCall "shutdown" :: checkEffs ++ pres, .ok ()⟩
      | .libvirtErr c => ⟨st, Effect.drvCall "shutdown" :: r1.2, .libvirtErr c⟩
      | .err => ⟨st, Effect.drvCall "shutdown" :: r1.2, .err⟩
    | .libvirtErr c => ⟨st, [Effect.drvCall "shutdown"], .libvirtErr c⟩
    | .err => ⟨st, [Effect.drvCall "shutdown"], .err⟩

/-- `destroy()` (lines 591-599). -/
def destroyOp (drv : Driver) (st0 : VMState) : OpResult Unit :=
  let st := lock st0
  match st.domain with
  | none => ⟨st, [], .err⟩
  | some _ =>
    match drv.destroyRes with
    | .ok ret =>
      if ret = 0 ∧ ¬ drv.isQemuOrXen then
        let r := on_domain_event drv st VIR_DOMAIN_EVENT_STOPPED VIR_DOMAIN_EVENT_STOPPED_DESTROYED
        ⟨r.1, Effect.drvCall "destroy" :: r.2, .ok ()⟩
      else ⟨st, [Effect.drvCall "destroy"], .ok ()⟩
    | .libvirtErr c => ⟨st, [Effect.drvCall "destroy"], .libvirtErr c⟩
    | .err => ⟨st, [Effect.drvCall "destroy"], .err⟩

/-- `reboot()` (lines 601-607): lock and call `domain.reboot(0)`; no
synthesized event. -/
def rebootOp (drv : Driver) (st0 : VMState) : OpResult Unit :=
  let st := lock st0
  match st.domain with
  | none => ⟨st, [], .err⟩
  | some _ =>
    match drv.rebootRes with
    | .ok _ => ⟨st, [Effect.drvCall "reboot"], .ok ()⟩
    | .libvirtErr c => ⟨st, [Effect.drvCall "reboot"], .libvirtErr c⟩
    | .err => ⟨st, [Effect.drvCall "reboot"], .err⟩

/-- `suspend()` (lines 609-617): synthesized event for non-QEMU drivers. -/
def suspendOp (drv : Driver) (st0 : VMState) : OpResult Unit :=
  let st := lock st0
  match st.domain with
  | none => ⟨st, [], .err⟩
  | some _ =>
    match drv.suspendRes with
    | .ok ret =>
      if ret = 0 ∧ ¬ drv.isQemu then
        let r := on_domain_event drv st VIR_DOMAIN_EVENT_SUSPENDED VIR_DOMAIN_EVENT_SUSPENDED_PAUSED
        ⟨r.1, Effect.drvCall "suspend" :: r.2, .ok ()⟩
      else ⟨st, [Effect.drvCall "suspend"], .ok ()⟩
    | .libvirtErr c => ⟨st, [Effect.drvCall "suspend"], .libvirtErr c⟩
    | .err => ⟨st, [Effect.drvCall "suspend"], .err⟩

/-- `resume()` (lines 619-627): synthesized event for non-QEMU drivers. -/
def resumeOp (drv : Driver) (st0 : VMState) : OpResult Unit :=
  let st := lock st0
  match st.domain with
  | none => ⟨st, [], .err⟩
  | some _ =>
    match drv.resumeRes with
    | .ok ret =>
      if ret = 0 ∧ ¬ drv.isQemu then
        let r := on_domain_event drv st VIR_DOMAIN_EVENT_RESUMED VIR_DOMAIN_EVENT_RESUMED_UNPAUSED
        ⟨r.1, Effect.drvCall "resume" :: r.2, .ok ()⟩
      else ⟨st, [Effect.drvCall "resume"], .ok ()⟩
    | .libvirtErr c => ⟨st, [Effect.drvCall "resume"], .libvirtErr c⟩
    | .err => ⟨st, [Effect.drvCall "resume"], .err⟩

/-- `setMemory(value)` (lines 673-684): clamp the value to at least 10,
call `domain.setMemory`, then arm the 1-second `memoryTimer`. -/
def setMemoryOp (drv : Driver) (st : VMState) (value : Int) : OpResult Unit :=
  let v := if value < 10 then (10 : Int) else value
  match st.domain with
  | none => ⟨st, [], .err⟩
  | some _ =>
    match drv.setMemoryRes with
    | .ok _ => ⟨st, [Effect.drvSetMemory v, Effect.armMemoryTimer v], .ok ()⟩
    | .libvirtErr c => ⟨st, [Effect.drvSetMemory v], .libvirtErr c⟩
    | .err => ⟨st, [Effect.drvSetMemory v], .err⟩

/-- `memoryTimer(requestedMemory, retry=3)` (lines 686-701).  `mems i` is
the memory value `self.info()["memory"]` reports at the i-th timer
invocation; `k` is the index of the current invocation.  The Python
integer division `requestedMemory / memory` has no zero guard: a zero
reading raises `ZeroDivisionError` in the timer thread, modelled as
`none` (no "memory" change notification is pushed).  Otherwise the
result `some j` means the "memory" notification is pushed at the j-th
invocation: when the ratio is 0 or 1, or after the retries are
exhausted, unconditionally. -/
def memoryTimer (requestedMemory : Nat) (mems : Nat → Nat) (k : Nat) (retry : Nat) :
    Option Nat :=
  if mems k = 0 then none
  else if requestedMemory / mems k = 0 ∨ requestedMemory / mems k = 1 then some (k + 1)
  else match retry with
    | 0 => some (k + 1)
    | r + 1 => memoryTimer requestedMemory mems (k + 1) r

/-- `setVCPUs(value)` (lines 703-713): lock, reject a value above
`domain.maxVcpus()` by raising (the error message formats the bound,
calling `maxVcpus` a second time), call `domain.setVcpus`, unlock.
There is no unlock on either failure path. -/
def setVCPUsOp (drv : Driver) (st0 : VMState) (value : Int) : OpResult Unit :=
  let st := lock st0
  match st.domain with
  | none => ⟨st, [], .err⟩
  | some _ =>
    match drv.maxVcpusRes with
    | .ok m =>
      if value > m then
        ⟨st, [Effect.drvCall "maxVcpus", Effect.drvCall "maxVcpus"], .err⟩
      else
        match drv.setVcpusRes with
        | .ok _ => ⟨unlock st, [Effect.drvCall "maxVcpus", Effect.drvCall "setVcpus"], .ok ()⟩
        | .libvirtErr c => ⟨st, [Effect.drvCall "maxVcpus", Effect.drvCall "setVcpus"], .libvirtErr c⟩
        | .err => ⟨st, [Effect.drvCall "maxVcpus", Effect.drvCall "setVcpus"], .err⟩
    | .libvirtErr c => ⟨st, [Effect.drvCall "maxVcpus"], .libvirtErr c⟩
    | .err => ⟨st, [Effect.drvCall "maxVcpus"], .err⟩

/-- `define(xmldesc)` (lines 740-755): call `defineXML` with the rewritten
description (`set_automatic_libvirt_description` mutates the node, so
the cached `definition` is the rewritten node), connect the domain
handle if null, cache the definition, synthesize a defined event for non
QEMU/Xen drivers when `defineXML` returned a truthy value. -/
def defineOp (ag : Agent) (drv : Driver) (st : VMState) (xmldesc : XmlNode) :
    OpResult Unit :=
  let t := set_automatic_libvirt_description ag xmldesc
  match drv.defineXMLRes with
  | .ok ret =>
    let c := if st.domain = none then connect_domain drv st else (st, [])
    let st2 := { c.1 with definition := some t }
    if ret ≠ 0 ∧ ¬ drv.isQemuOrXen then
      let r := on_domain_event drv st2 VIR_DOMAIN_EVENT_DEFINED 0
      ⟨r.1, Effect.drvDefineXML t :: c.2 ++ r.2, .ok ()⟩
    else ⟨st2, Effect.drvDefineXML t :: c.2, .ok ()⟩
  | .libvirtErr cd => ⟨st, [Effect.drvDefineXML t], .libvirtErr cd⟩
  | .err => ⟨st, [Effect.drvDefineXML t], .err⟩

/-- `undefine()` (lines 757-767): a no-op success when the domain handle
is null; otherwise call `domain.undefine()` and synthesize an undefined
event for non QEMU/Xen drivers. -/
def undefineOp (drv : Driver) (st : VMState) : OpResult Unit :=
  match st.domain with
  | none => ⟨st, [], .ok ()⟩
  | some _ =>
    match drv.undefineRes with
    | .ok ret =>
      if ret = 0 ∧ ¬ drv.isQemuOrXen then
        let r := on_domain_event drv st VIR_DOMAIN_EVENT_UNDEFINED 0
        ⟨r.1, Effect.drvCall "undefine" :: r.2, .ok ()⟩
      else ⟨st, [Effect.drvCall "undefine"], .ok ()⟩
    | .libvirtErr c => ⟨st, [Effect.drvCall "undefine"], .libvirtErr c⟩
    | .err => ⟨st, [Effect.drvCall "undefine"], .err⟩

/-! ### IQ handlers.  The router (`__process_iq_archipel_control`,
lines 468-531, and `__process_iq_archipel_definition`, lines 533-563)
dispatches the action name to these after the permission and migration
gates; the Lock Gate check lives inside the individual handlers. -/

/-- `iq_create` (lines 953-976): VM_LOCKED guard, then `create()`;
libvirt errors are unlocked and reported under the driver namespace,
other errors unlocked and reported as VM_CREATE. -/
def iq_create (drv : Driver) (st : VMState) : HResult :=
  if st.locked then ⟨st, .error ARCHIPEL_ERROR_CODE_VM_LOCKED false, []⟩
  else
    let r := createOp drv st
    match r.res with
    | .ok _ => ⟨r.st, .result, r.effects⟩
    | .libvirtErr c => ⟨unlock r.st, .error c true, r.effects⟩
    | .err => ⟨unlock r.st, .error ARCHIPEL_ERROR_CODE_VM_CREATE false, r.effects⟩

/-- `iq_shutdown` (lines 992-1012). -/
def iq_shutdown (drv : Driver) (st : VMState) : HResult :=
  if st.locked then ⟨st, .error ARCHIPEL_ERROR_CODE_VM_LOCKED false, []⟩
  else
    let r := shutdownOp drv st
    match r.res with
    | .ok _ => ⟨r.st, .result, r.effects⟩
    | .libvirtErr c => ⟨unlock r.st, .error c true, r.effects⟩
    | .err => ⟨unlock r.st, .error ARCHIPEL_ERROR_CODE_VM_SHUTDOWN false, r.effects⟩

/-- `iq_destroy` (lines 1028-1048). -/
def iq_destroy (drv : Driver) (st : VMState) : HResult :=
  if st.locked then ⟨st, .error ARCHIPEL_ERROR_CODE_VM_LOCKED false, []⟩
  else
    let r := destroyOp drv st
    match r.res with
    | .ok _ => ⟨r.st, .result, r.effects⟩
    | .libvirtErr c => ⟨unlock r.st, .error c true, r.effects⟩
    | .err => ⟨unlock r.st, .error ARCHIPEL_ERROR_CODE_VM_DESTROY false, r.effects⟩

/-- `iq_reboot` (lines 1064-1084); its libvirt-error reply is built
without the generic libvirt namespace. -/
def iq_reboot (drv : Driver) (st : VMState) : HResult :=
  if st.locked then ⟨st, .error ARCHIPEL_ERROR_CODE_VM_LOCKED false, []⟩
  else
    let r := rebootOp drv st
    match r.res with
    | .ok _ => ⟨r.st, .result, r.effects⟩
    | .libvirtErr c => ⟨unlock r.st, .error c false, r.effects⟩
    | .err => ⟨unlock r.st, .error ARCHIPEL_ERROR_CODE_VM_REBOOT false, r.effects⟩

/-- `iq_suspend` (lines 1100-1120). -/
def iq_suspend (drv : Driver) (st : VMState) : HResult :=
  if st.locked then ⟨st, .error ARCHIPEL_ERROR_CODE_VM_LOCKED false, []⟩
  else
    let r := suspendOp drv st
    match r.res with
    | .ok _ => ⟨r.st, .result, r.effects⟩
    | .libvirtErr c => ⟨unlock r.st, .error c true, r.effects⟩
    | .err => ⟨unlock r.st, .error ARCHIPEL_ERROR_CODE_VM_SUSPEND false, r.effects⟩

/-- `iq_resume` (lines 1136-1156). -/
def iq_resume (drv : Driver) (st : VMState) : HResult :=
  if st.locked then ⟨st, .error ARCHIPEL_ERROR_CODE_VM_LOCKED false, []⟩
  else
    let r := resumeOp drv st
    match r.res with
    | .ok _ => ⟨r.st, .result, r.effects⟩
    | .libvirtErr c => ⟨unlock r.st, .error c true, r.effects⟩
    | .err => ⟨unlock r.st, .error ARCHIPEL_ERROR_CODE_VM_RESUME false, r.effects⟩

/-- `iq_memory` (lines 1315-1332): no lock check.  `value` is the parsed
integer attribute (`none` when parsing raised). -/
def iq_memory (drv : Driver) (st : VMState) (value : Option Int) : HResult :=
  match value with
  | none => ⟨st, .error ARCHIPEL_ERROR_CODE_VM_MEMORY false, []⟩
  | some v =>
    let r := setMemoryOp drv st v
    match r.res with
    | .ok _ => ⟨r.st, .result, r.effects⟩
    | .libvirtErr c => ⟨r.st, .error c true, r.effects⟩
    | .err => ⟨r.st, .error ARCHIPEL_ERROR_CODE_VM_MEMORY false, r.effects⟩

/-- `iq_setvcpus` (lines 1334-1353): no lock check before dispatch, and
its generic error branch reuses `ARCHIPEL_ERROR_CODE_VM_MEMORY` and does
not unlock. -/
def iq_setvcpus (drv : Driver) (st : VMState) (value : Option Int) : HResult :=
  match value with
  | none => ⟨st, .error ARCHIPEL_ERROR_CODE_VM_MEMORY false, []⟩
  | some v =>
    let r := setVCPUsOp drv st v
    match r.res with
    | .ok _ => ⟨r.st, .result,
                r.effects ++ [Effect.pushChange "virtualmachine:control" "nvcpu",
                              Effect.pushChange "virtualmachine:definition" "nvcpu"]⟩
    | .libvirtErr c => ⟨r.st, .error c true, r.effects⟩
    | .err => ⟨r.st, .error ARCHIPEL_ERROR_CODE_VM_MEMORY false, r.effects⟩

/-- `iq_define` (lines 1252-1275): `req` is the parsed payload, a pair of
the `uuid` element's data and the `domain` node (`none` when the payload
is missing or malformed, which raises and lands in the generic except
branch).  A UUID different from the JID node raises `IncorrectUUID`,
reported with code VM_DEFINE and no driver call. -/
def iq_define (ag : Agent) (drv : Driver) (st : VMState)
    (req : Option (String × XmlNode)) : HResult :=
  match req with
  | none => ⟨st, .error ARCHIPEL_ERROR_CODE_VM_DEFINE false, []⟩
  | some (domain_uuid, xml) =>
    if domain_uuid ≠ ag.jidNode then ⟨st, .error ARCHIPEL_ERROR_CODE_VM_DEFINE false, []⟩
    else
      let r := defineOp ag drv st xml
      match r.res with
      | .ok _ => ⟨r.st, .result, r.effects⟩
      | .libvirtErr c => ⟨r.st, .error c true, r.effects⟩
      | .err => ⟨r.st, .error ARCHIPEL_ERROR_CODE_VM_DEFINE false, r.effects⟩

/-- `iq_undefine` (lines 1277-1294): its generic error branch reports
`ARCHIPEL_ERROR_CODE_VM_DESTROY`, not VM_UNDEFINE. -/
def iq_undefine (drv : Driver) (st : VMState) : HResult :=
  let r := undefineOp drv st
  match r.res with
  | .ok _ => ⟨r.st, .result, r.effects⟩
  | .libvirtErr c => ⟨r.st, .error c true, r.effects⟩
  | .err => ⟨r.st, .error ARCHIPEL_ERROR_CODE_VM_DESTROY false, r.effects⟩

/-- The `drvDefineXML` arguments occurring in an effect list: the XML
documents handed to the driver's `defineXML`. -/
def defineXMLArgs (effs : List Effect) : List XmlNode :=
  effs.filterMap (fun e => match e with
    | .drvDefineXML x => some x
    | _ => none)

/-! ### Concrete fixtures used by counterexamples, bug demonstrations and
witnesses. -/

/-- A running domain's `info()` tuple. -/
def info1 : DomInfo := ⟨1, 1048576, 524288, 2, 1000⟩

/-- A cached domain definition document. -/
def xmlDef0 : XmlNode := .mk "domain" "" [.mk "uuid" "aaaa" [], .mk "os" "hvm" []]

/-- A QEMU driver on which every call succeeds, reporting a running
domain with `maxVcpus = 2`. -/
def drv1 : Driver :=
  ⟨.ok 0, 7, .ok 0, .ok 0, .ok 0, .ok 0, .ok 0, .ok info1, .ok 0, .ok (),
   .ok 2, .ok (), .ok 1, .ok 0, .ok (), .ok xmlDef0, 9, true, true⟩

/-- Like `drv1` but `domain.info()` reports the shut-off state. -/
def drv5 : Driver := { drv1 with dominfo := .ok ⟨5, 1048576, 524288, 2, 1000⟩ }

/-- Like `drv1` but `domain.undefine()` raises a non-libvirt exception. -/
def drvUndefErr : Driver := { drv1 with undefineRes := .err }

/-- A connected, unlocked, non-migrating agent state with a cached
definition, a registered lifecycle callback with id 7, and the
`libvirt_run` trigger on. -/
def st0 : VMState :=
  ⟨false, false, false, 5, some (), some xmlDef0, none, some 7, true, "Running"⟩

/-- `st0` with the Lock Gate held. -/
def stLocked : VMState := { st0 with locked := true }

/-- `st0` with the migration flag raised. -/
def stMigrating : VMState := { st0 with is_migrating := true }

/-- The agent identity of the fixture VM. -/
def ag0 : Agent := ⟨"aaaa@host", "aaaa", "pw", "vm1"⟩

/-- A caller-supplied domain XML carrying its own description and name. -/
def xmlReq : XmlNode :=
  .mk "domain" ""
    [.mk "uuid" "aaaa" [], .mk "description" "junk" [], .mk "name" "old" []]

/-! ### Helper lemmas about the XML child-list operations. -/

theorem findTag_setDataFirst_same (t s : String) :
    ∀ (cs : List XmlNode) (c : XmlNode), findTag t cs = some c →
      findTag t (setDataFirst t s cs) = some (XmlNode.mk c.tag s c.children)
  | [], c, h => by simp [findTag] at h
  | ⟨ta, da, ca⟩ :: as, c, h => by
    simp only [findTag, setDataFirst, XmlNode.tag, XmlNode.children] at h ⊢
    by_cases ha : ta = t
    · rw [if_pos ha] at h
      injection h with h
      subst h
      rw [if_pos ha, findTag]
      simp only [XmlNode.tag, XmlNode.children]
      rw [if_pos ha]
    · rw [if_neg ha] at h
      rw [if_neg ha, findTag]
      simp only [XmlNode.tag]
      rw [if_neg ha]
      exact findTag_setDataFirst_same t s as c h

theorem findTag_setDataFirst_ne (t u s : String) (hne : u ≠ t) :
    ∀ (cs : List XmlNode), findTag u (setDataFirst t s cs) = findTag u cs
  | [] => rfl
  | ⟨ta, da, ca⟩ :: as => by
    simp only [findTag, setDataFirst, XmlNode.tag, XmlNode.children]
    by_cases ha : ta = t
    · have hau : ¬ ta = u := fun hh => hne (hh.symm.trans ha)
      rw [if_pos ha, findTag]
      simp only [XmlNode.tag]
      rw [if_neg hau, if_neg hau]
    · rw [if_neg ha, findTag]
      simp only [XmlNode.tag]
      by_cases hu : ta = u
      · rw [if_pos hu, if_pos hu]
      · rw [if_neg hu, if_neg hu]
        exact findTag_setDataFirst_ne t u s hne as

theorem findTag_append_of_some (t : String) :
    ∀ (cs : List XmlNode) (c x : XmlNode), findTag t cs = some x →
      findTag t (cs ++ [c]) = some x
  | [], c, x, h => by simp [findTag] at h
  | ⟨ta, da, ca⟩ :: as, c, x, h => by
    simp only [findTag, XmlNode.tag] at h
    simp only [List.cons_append, findTag, XmlNode.tag]
    by_cases ha : ta = t
    · rw [if_pos ha] at h
      rw [if_pos ha]
      exact h
    · rw [if_neg ha] at h
      rw [if_neg ha]
      exact findTag_append_of_some t as c x h

theorem findTag_append_of_none (t : String) :
    ∀ (cs : List XmlNode) (c : XmlNode), findTag t cs = none →
      findTag t (cs ++ [c]) = if c.tag = t then some c else none
  | [], c, h => by simp only [List.nil_append, findTag]
  | ⟨ta, da, ca⟩ :: as, c, h => by
    simp only [findTag, XmlNode.tag] at h
    simp only [List.cons_append, findTag, XmlNode.tag]
    by_cases ha : ta = t
    · rw [if_pos ha] at h
      exact absurd h (by simp)
    · rw [if_neg ha] at h
      rw [if_neg ha]
      exact findTag_append_of_none t as c h

theorem findTag_append_self (t : String) (cs : List XmlNode) (d : String)
    (ch : List XmlNode) :
    ∃ c, findTag t (cs ++ [XmlNode.mk t d ch]) = some c := by
  rcases h : findTag t cs with _ | x
  · refine ⟨XmlNode.mk t d ch, ?_⟩
    rw [findTag_append_of_none t cs _ h]
    simp [XmlNode.tag]
  · exact ⟨x, findTag_append_of_some t cs _ x h⟩

theorem setAuto_desc_append (nm : String) (cs2 : List XmlNode) (c : XmlNode)
    (hc2 : findTag "description" cs2 = some c) :
    Option.map XmlNode.data
        (findTag "description"
          (setDataFirst "name" nm (cs2 ++ [XmlNode.mk "name" "" []]))) =
      some c.data := by
  rw [findTag_setDataFirst_ne "name" "description" nm (by decide),
    findTag_append_of_some _ _ _ _ hc2]
  rfl

theorem setAuto_name_append (nm : String) (cs2 : List XmlNode)
    (hn : findTag "name" cs2 = none) :
    Option.map XmlNode.data
        (findTag "name" (setDataFirst "name" nm (cs2 ++ [XmlNode.mk "name" "" []]))) =
      some nm := by
  have h3 : findTag "name" (cs2 ++ [XmlNode.mk "name" "" []]) =
      some (XmlNode.mk "name" "" []) := by
    rw [findTag_append_of_none _ _ _ hn]
    simp [XmlNode.tag]
  rw [findTag_setDataFirst_same "name" nm _ _ h3]
  rfl

theorem setAuto_desc_keep (nm : String) (cs2 : List XmlNode) (c : XmlNode)
    (hc2 : findTag "description" cs2 = some c) :
    Option.map XmlNode.data (findTag "description" (setDataFirst "name" nm cs2)) =
      some c.data := by
  rw [findTag_setDataFirst_ne "name" "description" nm (by decide), hc2]
  rfl

theorem setAuto_name_keep (nm : String) (cs2 : List XmlNode) (n0 : XmlNode)
    (hn : findTag "name" cs2 = some n0) :
    Option.map XmlNode.data (findTag "name" (setDataFirst "name" nm cs2)) =
      some nm := by
  rw [findTag_setDataFirst_same "name" nm _ _ hn]
  rfl

/-- The pure property of `set_automatic_libvirt_description`: in the
rewritten document the (first) description element's data is exactly
`<jid>::::<password>` and the (first) name element's data is the agent's
display name, whatever the caller supplied. -/
theorem set_automatic_props (ag : Agent) (xml : XmlNode) :
    ((set_automatic_libvirt_description ag xml).getTag "description").map XmlNode.data =
        some (ag.jidStripped ++ "::::" ++ ag.password) ∧
      ((set_automatic_libvirt_description ag xml).getTag "name").map XmlNode.data =
        some ag.name := by
  obtain ⟨tx, dx, cx⟩ := xml
  simp only [set_automatic_libvirt_description, XmlNode.getTag, XmlNode.addChild,
    XmlNode.delChild, XmlNode.setTagData, XmlNode.children, XmlNode.tag]
  rcases hd : findTag "description" cx with _ | _ <;>
    simp only [XmlNode.getTag, XmlNode.addChild, XmlNode.setTagData, XmlNode.children,
      XmlNode.tag]
  · obtain ⟨c, hc⟩ := findTag_append_self "description" cx "" []
    have hc2 := findTag_setDataFirst_same "description"
      (ag.jidStripped ++ "::::" ++ ag.password) _ _ hc
    rcases hn : findTag "name"
        (setDataFirst "description" (ag.jidStripped ++ "::::" ++ ag.password)
          (cx ++ [XmlNode.mk "description" "" []])) with _ | _ <;>
      simp only [XmlNode.getTag, XmlNode.addChild, XmlNode.setTagData, XmlNode.children,
        XmlNode.tag]
    · exact ⟨setAuto_desc_append _ _ _ hc2, setAuto_name_append _ _ hn⟩
    · exact ⟨setAuto_desc_keep _ _ _ hc2, setAuto_name_keep _ _ _ hn⟩
  · obtain ⟨c, hc⟩ := findTag_append_self "description" (delTag "description" cx) "" []
    have hc2 := findTag_setDataFirst_same "description"
      (ag.jidStripped ++ "::::" ++ ag.password) _ _ hc
    rcases hn : findTag "name"
        (setDataFirst "description" (ag.jidStripped ++ "::::" ++ ag.password)
          (delTag "description" cx ++ [XmlNode.mk "description" "" []])) with _ | _ <;>
      simp only [XmlNode.getTag, XmlNode.addChild, XmlNode.setTagData, XmlNode.children,
        XmlNode.tag]
    · exact ⟨setAuto_desc_append _ _ _ hc2, setAuto_name_append _ _ hn⟩
    · exact ⟨setAuto_desc_keep _ _ _ hc2, setAuto_name_keep _ _ _ hn⟩

/-! ### Helper lemmas locating the `defineXML` driver calls. -/

theorem defineXMLArgs_append (a b : List Effect) :
    defineXMLArgs (a ++ b) = defineXMLArgs a ++ defineXMLArgs b := by
  simp [defineXMLArgs]

theorem defineXMLArgs_infoOp (drv : Driver) (st : VMState) :
    defineXMLArgs (infoOp drv st).2 = [] := by
  unfold infoOp
  cases st.domain <;> cases drv.dominfo <;> simp [defineXMLArgs]

theorem defineXMLArgs_set_presence (drv : Driver) (st : VMState) :
    defineXMLArgs (set_presence_according_to_libvirt_info drv st).2 = [] := by
  unfold set_presence_according_to_libvirt_info
  cases drv.dominfo <;> simp [defineXMLArgs] <;> split_ifs <;> simp [defineXMLArgs]

theorem defineXMLArgs_domainEventBranch (st : VMState) (e d : Nat) :
    defineXMLArgs (domainEventBranch st e d).2 = [] := by
  unfold domainEventBranch
  split_ifs <;> simp [defineXMLArgs, remove_libvirt_handler] <;>
    cases st.libvirt_event_callback_id <;> simp [defineXMLArgs]

theorem defineXMLArgs_nil : defineXMLArgs [] = [] := rfl

theorem defineXMLArgs_cons_defineXML (x : XmlNode) (l : List Effect) :
    defineXMLArgs (Effect.drvDefineXML x :: l) = x :: defineXMLArgs l := rfl

theorem defineXMLArgs_on_domain_event (drv : Driver) (st : VMState) (e d : Nat) :
    defineXMLArgs (on_domain_event drv st e d).2 = [] := by
  unfold on_domain_event
  split_ifs
  · rfl
  · rw [defineXMLArgs_append, defineXMLArgs_domainEventBranch, defineXMLArgs_infoOp]
    rfl
  · rw [defineXMLArgs_domainEventBranch]

theorem defineXMLArgs_connect_domain (drv : Driver) (st : VMState) :
    defineXMLArgs (connect_domain drv st).2 = [] := by
  unfold connect_domain
  cases st.domain with
  | some u => rfl
  | none =>
    cases drv.lookupRes with
    | ok u =>
      cases drv.xmlDescRes with
      | ok x =>
        rw [defineXMLArgs_append, defineXMLArgs_set_presence]
        rfl
      | libvirtErr c => rfl
      | err => rfl
    | libvirtErr c => rfl
    | err => rfl

theorem defineXMLArgs_defineOp (ag : Agent) (drv : Driver) (st : VMState)
    (xml : XmlNode) :
    defineXMLArgs (defineOp ag drv st xml).effects =
      [set_automatic_libvirt_description ag xml] := by
  unfold defineOp
  cases drv.defineXMLRes with
  | ok ret =>
    dsimp only
    by_cases h1 : st.domain = none
    · by_cases h2 : ret ≠ 0 ∧ ¬ drv.isQemuOrXen = true
      · rw [if_pos h1, if_pos h2]
        dsimp only
        rw [defineXMLArgs_append, defineXMLArgs_cons_defineXML,
          defineXMLArgs_connect_domain, defineXMLArgs_on_domain_event]
        rfl
      · rw [if_pos h1, if_neg h2]
        dsimp only
        rw [defineXMLArgs_cons_defineXML, defineXMLArgs_connect_domain]
    · by_cases h2 : ret ≠ 0 ∧ ¬ drv.isQemuOrXen = true
      · rw [if_neg h1, if_pos h2]
        dsimp only
        rw [defineXMLArgs_append, defineXMLArgs_on_domain_event]
        rfl
      · rw [if_neg h1, if_neg h2]
        rfl
  | libvirtErr c => rfl
  | err => rfl

/-! ### Claim theorems -/

/-- Claim C1, counterexample: a `memory` request arriving while the Lock
Gate is held is not rejected with VM_LOCKED — the handler has no lock
check, replies `result` and performs the `setMemory` driver call. -/
theorem c1_locked_memory_counterexample :
    stLocked.locked = true ∧
    (iq_memory drv1 stLocked (some 512)).reply = Reply.result ∧
    (iq_memory drv1 stLocked (some 512)).effects =
      [Effect.drvSetMemory 512, Effect.armMemoryTimer 512] ∧
    (∀ c b, Reply.result ≠ Reply.error c b) :=
  ⟨rfl, rfl, rfl, fun _ _ h => Reply.noConfusion h⟩

/-- Claim C1, amended: while the Lock Gate is held, exactly the six
lifecycle handlers — create, shutdown, destroy, reboot, suspend and
resume — reply with the typed error VM_LOCKED (-1012), leave the state
untouched and make no driver call; the remaining mutating handlers have
no lock check. -/
theorem c1_lock_gate_amended (drv : Driver) (st : VMState) (h : st.locked = true) :
    iq_create drv st = ⟨st, .error ARCHIPEL_ERROR_CODE_VM_LOCKED false, []⟩ ∧
    iq_shutdown drv st = ⟨st, .error ARCHIPEL_ERROR_CODE_VM_LOCKED false, []⟩ ∧
    iq_destroy drv st = ⟨st, .error ARCHIPEL_ERROR_CODE_VM_LOCKED false, []⟩ ∧
    iq_reboot drv st = ⟨st, .error ARCHIPEL_ERROR_CODE_VM_LOCKED false, []⟩ ∧
    iq_suspend drv st = ⟨st, .error ARCHIPEL_ERROR_CODE_VM_LOCKED false, []⟩ ∧
    iq_resume drv st = ⟨st, .error ARCHIPEL_ERROR_CODE_VM_LOCKED false, []⟩ := by
  refine ⟨?_, ?_, ?_, ?_, ?_, ?_⟩ <;>
    simp [iq_create, iq_shutdown, iq_destroy, iq_reboot, iq_suspend, iq_resume, h]

/-- Witness for the amended C1 at a concrete locked state. -/
theorem c1_lock_gate_amended_witness :
    stLocked.locked = true ∧
      iq_create drv1 stLocked = ⟨stLocked, .error ARCHIPEL_ERROR_CODE_VM_LOCKED false, []⟩ :=
  ⟨rfl, (c1_lock_gate_amended drv1 stLocked rfl).1⟩

/-- Claim C2, counterexample: when the driver reports the shut-off state,
the presence refresh publishes status text "Off" — not "Shutted off" —
and leaves the `libvirt_run` trigger untouched (here: still on). -/
theorem c2_shutoff_presence_counterexample :
    (set_presence_according_to_libvirt_info drv5 st0).2 =
      [Effect.presence "xa" ARCHIPEL_XMPP_SHOW_SHUTDOWNED, Effect.hook "HOOK_VM_INITIALIZE"] ∧
    ARCHIPEL_XMPP_SHOW_SHUTDOWNED ≠ ARCHIPEL_XMPP_SHOW_SHUTOFF ∧
    st0.trigger_libvirt_run = true ∧
    (set_presence_according_to_libvirt_info drv5 st0).1.trigger_libvirt_run = true :=
  ⟨rfl, by decide, rfl, rfl⟩

/-- Claim C2, amended: the presence refresh maps the observed Libvirt
Status as follows — running/blocked to (available, "Running", trigger
on); paused to (away, "Paused", trigger off); shut-off to (extended-away,
"Off", trigger unchanged); shutdown-in-progress to (available,
"Shutdowning...", trigger unchanged); any other state (no-state,
crashed) publishes nothing and leaves the trigger unchanged; each
successful refresh ends with `HOOK_VM_INITIALIZE`.  A no-domain error
(libvirt code 42) maps to (extended-away, "Not defined", trigger off)
and drops the Domain Handle. -/
theorem c2_presence_mapper_amended (drv : Driver) (st : VMState) :
    (∀ i, drv.dominfo = .ok i →
      set_presence_according_to_libvirt_info drv st =
        ({ st with libvirt_status := i.state,
                   trigger_libvirt_run :=
                     if i.state = VIR_DOMAIN_RUNNING ∨ i.state = VIR_DOMAIN_BLOCKED then true
                     else if i.state = VIR_DOMAIN_PAUSED then false
                     else st.trigger_libvirt_run },
         (if i.state = VIR_DOMAIN_RUNNING ∨ i.state = VIR_DOMAIN_BLOCKED then
            [Effect.presence "" ARCHIPEL_XMPP_SHOW_RUNNING]
          else if i.state = VIR_DOMAIN_PAUSED then
            [Effect.presence "away" ARCHIPEL_XMPP_SHOW_PAUSED]
          else if i.state = VIR_DOMAIN_SHUTOFF then
            [Effect.presence "xa" ARCHIPEL_XMPP_SHOW_SHUTDOWNED]
          else if i.state = VIR_DOMAIN_SHUTDOWN then
            [Effect.presence "" ARCHIPEL_XMPP_SHOW_SHUTDOWNING]
          else []) ++ [Effect.hook "HOOK_VM_INITIALIZE"]))
    ∧ (drv.dominfo = .libvirtErr 42 →
      set_presence_according_to_libvirt_info drv st =
        ({ st with domain := none, trigger_libvirt_run := false },
         [Effect.presence "xa" ARCHIPEL_XMPP_SHOW_NOT_DEFINED])) := by
  constructor
  · intro i h
    simp only [set_presence_according_to_libvirt_info, h]
    split_ifs <;> rfl
  · intro h
    simp [set_presence_according_to_libvirt_info, h, VIR_ERR_NO_DOMAIN]

/-- Witness for the amended C2: the running state at a concrete driver. -/
theorem c2_presence_mapper_witness :
    drv1.dominfo = DrvResult.ok info1 ∧
    set_presence_according_to_libvirt_info drv1 st0 =
      ({ st0 with libvirt_status := 1, trigger_libvirt_run := true },
       [Effect.presence "" ARCHIPEL_XMPP_SHOW_RUNNING, Effect.hook "HOOK_VM_INITIALIZE"]) := by
  refine ⟨rfl, ?_⟩
  have h := (c2_presence_mapper_amended drv1 st0).1 info1 rfl
  simpa [info1, VIR_DOMAIN_RUNNING, VIR_DOMAIN_BLOCKED, VIR_DOMAIN_PAUSED] using h

/-- Claim C3, bug demonstration: processing a resumed lifecycle event
(while not migrating) on a driver that reports the running state leaves
the `libvirt_run` trigger OFF even though the refreshed Libvirt Status is
running — the resumed branch of `on_domain_event` sets the trigger to
`ARCHIPEL_TRIGGER_STATE_OFF` (line 371). -/
theorem c3_resumed_trigger_off :
    st0.is_migrating = false ∧
    (on_domain_event drv1 st0 VIR_DOMAIN_EVENT_RESUMED
        VIR_DOMAIN_EVENT_RESUMED_UNPAUSED).1.libvirt_status = VIR_DOMAIN_RUNNING ∧
    (on_domain_event drv1 st0 VIR_DOMAIN_EVENT_RESUMED
        VIR_DOMAIN_EVENT_RESUMED_UNPAUSED).1.trigger_libvirt_run = false ∧
    (on_domain_event drv1 st0 VIR_DOMAIN_EVENT_RESUMED
        VIR_DOMAIN_EVENT_RESUMED_UNPAUSED).2 =
      [Effect.presence "" ARCHIPEL_XMPP_SHOW_RUNNING,
       Effect.pushChange "virtualmachine:control" "resumed",
       Effect.hook "HOOK_VM_RESUME",
       Effect.drvCall "info", Effect.drvCall "autostart"] :=
  ⟨rfl, rfl, rfl, rfl⟩

/-- Claim C4 (confirmed): a hypervisor lifecycle event delivered while
`is_migrating` is true changes no state — presence, trigger, domain
handle — and produces no effect (no presence publish, no change
notification, no hook, no driver call). -/
theorem c4_migrating_events_dropped (drv : Driver) (st : VMState) (event detail : Nat)
    (h : st.is_migrating = true) : on_domain_event drv st event detail = (st, []) := by
  simp [on_domain_event, h]

/-- Witness for C4 at a concrete migrating state and a started event. -/
theorem c4_migrating_events_dropped_witness :
    stMigrating.is_migrating = true ∧
      on_domain_event drv1 stMigrating VIR_DOMAIN_EVENT_STARTED
        VIR_DOMAIN_EVENT_STARTED_BOOTED = (stMigrating, []) :=
  ⟨rfl, c4_migrating_events_dropped drv1 stMigrating _ _ rfl⟩

/-- Claim C5, bug demonstration: after an undefined lifecycle event (not
migrating) the Domain Handle is null and the lifecycle callback is
deregistered, but the Domain Definition is NOT cleared — the handler
assigns `None` to the unused attribute `description` (line 394) instead
of `definition`, so the cached definition survives. -/
theorem c5_undefined_event_keeps_definition :
    (on_domain_event drv1 st0 VIR_DOMAIN_EVENT_UNDEFINED 0).1.domain = none ∧
    (on_domain_event drv1 st0 VIR_DOMAIN_EVENT_UNDEFINED 0).1.libvirt_event_callback_id = none ∧
    (on_domain_event drv1 st0 VIR_DOMAIN_EVENT_UNDEFINED 0).2 =
      [Effect.presence "xa" ARCHIPEL_XMPP_SHOW_NOT_DEFINED,
       Effect.pushChange "virtualmachine:definition" "undefined",
       Effect.hook "HOOK_VM_UNDEFINE",
       Effect.deregisterCallback 7] ∧
    st0.definition = some xmlDef0 ∧
    (on_domain_event drv1 st0 VIR_DOMAIN_EVENT_UNDEFINED 0).1.definition = some xmlDef0 ∧
    (on_domain_event drv1 st0 VIR_DOMAIN_EVENT_UNDEFINED 0).1.description = none :=
  ⟨rfl, rfl, rfl, rfl, rfl, rfl⟩

/-- Claim C6 (confirmed): every XML document a define request hands to the
driver's `defineXML` has its description element set to exactly
`<jid>::::<password>` and its name element set to the agent's display
name, regardless of the description or name the caller supplied. -/
theorem c6_define_rewrites_description (ag : Agent) (drv : Driver) (st : VMState)
    (req : Option (String × XmlNode))
    (h : (iq_define ag drv st req).reply = Reply.result) :
    ∀ x ∈ defineXMLArgs (iq_define ag drv st req).effects,
      (x.getTag "description").map XmlNode.data =
          some (ag.jidStripped ++ "::::" ++ ag.password) ∧
        (x.getTag "name").map XmlNode.data = some ag.name := by
  intro x hx
  rcases req with _ | ⟨u, xml⟩
  · rw [iq_define] at h
    exact absurd h (fun hh => Reply.noConfusion hh)
  · simp only [iq_define] at h hx
    by_cases hu : u ≠ ag.jidNode
    · rw [if_pos hu] at h
      exact absurd h (fun hh => Reply.noConfusion hh)
    · rw [if_neg hu] at h hx
      cases hr : (defineOp ag drv st xml).res with
      | ok val =>
        rw [hr] at hx
        rw [defineXMLArgs_defineOp] at hx
        rcases List.mem_singleton.mp hx with rfl
        exact set_automatic_props ag xml
      | libvirtErr c =>
        rw [hr] at h
        exact absurd h (fun hh => Reply.noConfusion hh)
      | err =>
        rw [hr] at h
        exact absurd h (fun hh => Reply.noConfusion hh)

/-- Witness for C6 at a concrete successful define request whose payload
carries its own description and name. -/
theorem c6_define_rewrites_description_witness :
    (iq_define ag0 drv1 st0 (some ("aaaa", xmlReq))).reply = Reply.result ∧
      ((set_automatic_libvirt_description ag0 xmlReq).getTag "description").map XmlNode.data =
          some (ag0.jidStripped ++ "::::" ++ ag0.password) ∧
        ((set_automatic_libvirt_description ag0 xmlReq).getTag "name").map XmlNode.data =
          some ag0.name := by
  have hm : defineXMLArgs (iq_define ag0 drv1 st0 (some ("aaaa", xmlReq))).effects =
      [set_automatic_libvirt_description ag0 xmlReq] := rfl
  refine ⟨rfl, ?_⟩
  exact c6_define_rewrites_description ag0 drv1 st0 (some ("aaaa", xmlReq)) rfl
    (set_automatic_libvirt_description ag0 xmlReq) (by rw [hm]; exact List.Mem.head _)

/-- Claim C7 (confirmed): a define request whose domain XML uuid differs
from the agent's uuid is answered with the typed error VM_DEFINE
(-1007, the IncorrectUUID exception), makes no driver call, and leaves
the whole state — the stored definition included — unchanged. -/
theorem c7_define_uuid_mismatch (ag : Agent) (drv : Driver) (st : VMState)
    (domain_uuid : String) (xml : XmlNode) (h : domain_uuid ≠ ag.jidNode) :
    iq_define ag drv st (some (domain_uuid, xml)) =
      ⟨st, .error ARCHIPEL_ERROR_CODE_VM_DEFINE false, []⟩ := by
  simp [iq_define, h]

/-- Witness for C7: agent uuid "aaaa", request uuid "BBBB". -/
theorem c7_define_uuid_mismatch_witness :
    ("BBBB" ≠ ag0.jidNode) ∧
      iq_define ag0 drv1 st0 (some ("BBBB", xmlReq)) =
        ⟨st0, .error ARCHIPEL_ERROR_CODE_VM_DEFINE false, []⟩ :=
  ⟨by decide, c7_define_uuid_mismatch ag0 drv1 st0 "BBBB" xmlReq (by decide)⟩

/-- Claim C8, bug demonstration: a setvcpus request whose precondition
check fails (value 5 above the driver's maxVcpus 2) acquires the lock,
raises, and the handler's error branch sends the reply WITHOUT releasing
the Lock Gate: afterwards `locked` is still true and only the armed
safety timer will release it. -/
theorem c8_setvcpus_lock_leak :
    st0.locked = false ∧
    (iq_setvcpus drv1 st0 (some 5)).st.locked = true ∧
    (iq_setvcpus drv1 st0 (some 5)).st.lock_timer = true ∧
    (iq_setvcpus drv1 st0 (some 5)).reply = Reply.error ARCHIPEL_ERROR_CODE_VM_MEMORY false :=
  ⟨rfl, rfl, rfl, rfl⟩

/-- Claim C9, bug demonstration: an undefine request failing with a
non-libvirt error replies with code -1004 (`ARCHIPEL_ERROR_CODE_VM_DESTROY`)
— not the undefine action's own code VM_UNDEFINE = -1008, which is
defined in the module but never used. -/
theorem c9_undefine_wrong_error_code :
    (iq_undefine drvUndefErr st0).reply = Reply.error ARCHIPEL_ERROR_CODE_VM_DESTROY false ∧
    ARCHIPEL_ERROR_CODE_VM_DESTROY ≠ ARCHIPEL_ERROR_CODE_VM_UNDEFINE :=
  ⟨rfl, by decide⟩

/-- With every memory reading nonzero, `memoryTimer` pushes the "memory"
notification after at least 1 and at most `retry + 1` invocations. -/
theorem memoryTimer_pushes (requested : Nat) (mems : Nat → Nat)
    (h : ∀ i, mems i ≠ 0) :
    ∀ (retry k : Nat), ∃ n, 1 ≤ n ∧ n ≤ retry + 1 ∧
      memoryTimer requested mems k retry = some (k + n)
  | 0, k => by
    refine ⟨1, le_refl 1, le_refl 1, ?_⟩
    rw [memoryTimer, if_neg (h k)]
    split_ifs <;> rfl
  | r + 1, k => by
    by_cases hc : requested / mems k = 0 ∨ requested / mems k = 1
    · exact ⟨1, le_refl 1, by omega, by rw [memoryTimer, if_neg (h k), if_pos hc]⟩
    · obtain ⟨n, h1, h2, h3⟩ := memoryTimer_pushes requested mems h r (k + 1)
      refine ⟨n + 1, by omega, by omega, ?_⟩
      rw [memoryTimer, if_neg (h k), if_neg hc]
      rw [h3]
      congr 1
      omega

/-- Claim C10 (confirmed): while the driver reports nonzero memory, the
memory-poll timer is total and pushes the "memory" change notification
within at most 4 invocations (3 retries after the first); a zero memory
reading makes the unguarded division raise (`none`), and no notification
is emitted. -/
theorem c10_memory_timer (requested : Nat) (mems : Nat → Nat) :
    ((∀ i, mems i ≠ 0) →
      ∃ n, 1 ≤ n ∧ n ≤ 4 ∧ memoryTimer requested mems 0 3 = some n) ∧
    (mems 0 = 0 → memoryTimer requested mems 0 3 = none) := by
  constructor
  · intro h
    obtain ⟨n, h1, h2, h3⟩ := memoryTimer_pushes requested mems h 3 0
    refine ⟨n, h1, by omega, ?_⟩
    simpa using h3
  · intro h
    rw [memoryTimer, if_pos h]

/-- Witness for C10: a 512-unit request against constant readings 512
(push within 4 invocations) and against constant readings 0 (raise). -/
theorem c10_memory_timer_witness :
    (∃ n, 1 ≤ n ∧ n ≤ 4 ∧ memoryTimer 512 (fun _ => 512) 0 3 = some n) ∧
      memoryTimer 512 (fun _ => 0) 0 3 = none :=
  ⟨(c10_memory_timer 512 (fun _ => 512)).1 (fun _ => by decide),
   (c10_memory_timer 512 (fun _ => 0)).2 rfl⟩

end Archipel


